import Mathlib

/-!
Verification of the nba-props-lab backend (src/main.py) against its
natural-language specification.

The Python source is shallowly embedded: pure helpers become Lean functions,
the in-memory TTL cache becomes an association list threaded explicitly
through each fetch function, outbound NBA-API requests become oracle fields
of an `Upstream` structure (each oracle maps the retry-attempt index to
`Except Unit result`, `Except.error` standing for a raised exception), and
each fetch function additionally returns the updated cache and the list of
upstream requests it actually issued.  Python float arithmetic is modelled
by exact rational arithmetic (`Rat`); wall-clock time is an explicit `Rat`
parameter `now`.
-/

set_option autoImplicit false

namespace NbaPropsLab

/-! Section: Caching layer (`DataCache`, src/main.py lines 163-184)

The Python cache is a single dict mapping string keys to
`{"data": ..., "timestamp": ...}` entries.  We keep the value type generic
so the cache semantics can be stated for every key and value, exactly as
the class is generic in what it stores. -/

/-- One cache slot: the stored value together with the time it was stored
(`{"data": data, "timestamp": datetime.now().timestamp()}`). -/
structure CacheEntry (V : Type) where
  data : V
  timestamp : Rat
  deriving DecidableEq, Repr

/-- The cache dict `self.cache`, as an association list keyed by strings. -/
abbrev DataCache (V : Type) := List (String × CacheEntry V)

namespace DataCache

variable {V : Type}

/-- Membership test `key in self.cache` plus the entry access
`self.cache[key]`. -/
def find (self : DataCache V) (key : String) : Option (CacheEntry V) :=
  match self with
  | [] => none
  | (k, e) :: rest => if k = key then some e else find rest key

/-- Method `DataCache.get`: return the stored value when the entry exists and
`now - entry.timestamp < ttl_seconds`, else `None`.  The read never
modifies the store (the cache argument is untouched). -/
def get (self : DataCache V) (key : String) (ttl_seconds : Rat) (now : Rat) :
    Option V :=
  match find self key with
  | some entry => if now - entry.timestamp < ttl_seconds then some entry.data else none
  | none => none

/-- Method `DataCache.set`: `self.cache[key] = {"data": data, "timestamp": now}` —
overwrite the binding for `key` (keeping its position, as a Python dict
does) or append a fresh one. -/
def set (self : DataCache V) (key : String) (data : V) (now : Rat) :
    DataCache V :=
  match self with
  | [] => [(key, ⟨data, now⟩)]
  | (k, e) :: rest =>
      if k = key then (k, ⟨data, now⟩) :: rest else (k, e) :: set rest key data now

/-- Method `DataCache.clear`: `self.cache = {}`. -/
def clear (_ : DataCache V) : DataCache V := []

theorem find_set (self : DataCache V) (key : String) (v : V) (t : Rat) :
    (set self key v t).find key = some ⟨v, t⟩ := by
  induction self with
  | nil => simp [set, find]
  | cons hd tl ih =>
      obtain ⟨k, e⟩ := hd
      by_cases hk : k = key
      · simp [set, find, hk]
      · simp [set, find, hk, ih]

end DataCache

/-- C1: for every prior cache state, key, value and read-time ttl, a
`get(key, ttl)` performed at time `tGet` after a `set(key, value)` at time
`tSet` returns exactly `value` when `tGet - tSet < ttl` (strictly) and
behaves as absent otherwise; and the expired entry is never removed by the
read — it stays in the store (so a later read with a larger ttl still sees
it), only shadowed. -/
theorem ttlcache_get_set_semantics {V : Type} (c : DataCache V) (key : String)
    (v : V) (tSet tGet ttl : Rat) :
    ((c.set key v tSet).get key ttl tGet =
       if tGet - tSet < ttl then some v else none)
    ∧ (c.set key v tSet).find key = some ⟨v, tSet⟩ := by
  refine ⟨?_, DataCache.find_set c key v tSet⟩
  simp [DataCache.get, DataCache.find_set]

/-! Section: Raw upstream rows and plain records

Raw responses are modelled as already-parsed rows.  A stat column that can
be missing or `None`/NaN in a pandas row is an `Option Rat`; the Python
idiom `float(row.get("X", 0) or 0)` is `orZero`.  Fields the code reads
with a total `.get(..., default)` on a dict it built itself are modelled
as plain fields with the default already applied. -/

/-- Python `float(x or 0)`: a missing or `None` column defaults to `0`. -/
def orZero : Option Rat → Rat
  | none => 0
  | some v => v

/-- Python `int(x or 0)`: integer variant of `orZero`. -/
def orZeroInt : Option Int → Int
  | none => 0
  | some v => v

/-- One game dict from the live scoreboard (`scoreboard.games.get_dict()`);
nested `.get` defaults (`""`, `0`, `"TBD"`, `1`) are already applied. -/
structure LiveGameRow where
  gameId : String
  homeTeamId : Int
  awayTeamId : Int
  gameStatusText : String
  gameStatus : Int
  homeScore : Int
  awayScore : Int
  deriving DecidableEq, Repr

/-- One row of `ScoreboardV2().game_header`, defaults applied. -/
structure StatsGameRow where
  gameId : String
  homeTeamId : Int
  visitorTeamId : Int
  gameStatusText : String
  gameStatusId : Int
  deriving DecidableEq, Repr

/-- The game dict built by `fetch_todays_games` (the live path also carries
scores, the stats path does not, so the score keys are optional). -/
structure GameDict where
  gameId : String
  homeTeamId : Int
  awayTeamId : Int
  gameTime : String
  gameStatus : Int
  homeScore : Option Int
  awayScore : Option Int
  deriving DecidableEq, Repr

/-- One row of `CommonTeamRoster().common_team_roster`.  A missing
`PLAYER_ID` (Python `None`, falsy) is modelled as `0`, which is also falsy
in the source's `if not player_id` test. -/
structure RosterRow where
  player_id : Int
  player : String
  position : String
  height : String
  weight : String
  exp : String
  deriving DecidableEq, Repr

/-- The player dict built by `fetch_team_roster`. -/
structure RosterEntry where
  id : Int
  name : String
  position : String
  height : String
  weight : String
  experience : String
  deriving DecidableEq, Repr

/-- One row of the overall player dashboard
(`PlayerDashboardByGeneralSplits().overall_player_dashboard`). -/
structure StatRow where
  pts : Option Rat
  reb : Option Rat
  ast : Option Rat
  stl : Option Rat
  blk : Option Rat
  fg_pct : Option Rat
  fg3_pct : Option Rat
  ft_pct : Option Rat
  min : Option Rat
  deriving DecidableEq, Repr

/-- One row of the location / vs-conference player dashboards (only
`GROUP_VALUE`, `PTS` and `REB` are read by the source). -/
structure LocRow where
  group_value : String
  pts : Option Rat
  reb : Option Rat
  deriving DecidableEq, Repr

/-- A successful `PlayerDashboardByGeneralSplits` response: the three data
frames the source reads.  Accessing the vs-conference frame can itself
raise inside the library (the source guards it with its own bare
`except`), so that frame is an `Except`. -/
structure PlayerDashboard where
  overall : List StatRow
  location : List LocRow
  vsConference : Except Unit (List LocRow)
  deriving Repr

/-- One row of `PlayerGameLog().player_game_log`. -/
structure GameLogRow where
  matchup : String
  pts : Option Int
  reb : Option Int
  ast : Option Int
  deriving DecidableEq, Repr

/-- The per-game dict built by `fetch_player_last5`. -/
structure GameInfo where
  game : String
  pts : Int
  reb : Int
  ast : Int
  deriving DecidableEq, Repr

/-- One row of a `LeagueDashPtStats` frame.  One row shape carries the
columns of all four measure types; each measure type only reads its own
columns.  A missing `PLAYER_ID` is modelled as `0` (falsy). -/
structure PtRow where
  player_id : Int
  passes_made : Option Rat
  potential_ast : Option Rat
  ast : Option Rat
  ast_pts_created : Option Rat
  reb_chances : Option Rat
  reb : Option Rat
  reb_contest : Option Rat
  reb_uncontest : Option Rat
  avg_speed : Option Rat
  dist_miles : Option Rat
  touches : Option Rat
  time_of_poss : Option Rat
  deriving DecidableEq, Repr

/-- One row of `LeagueHustleStatsPlayer`. -/
structure HustleRow where
  player_id : Int
  contested_shots : Option Rat
  deflections : Option Rat
  loose_balls : Option Rat
  screen_assists : Option Rat
  charges_drawn : Option Rat
  deriving DecidableEq, Repr

/-- The `{"pts": ..., "reb": ...}` sub-dict of a split. -/
structure SplitPair where
  pts : Rat
  reb : Rat
  deriving DecidableEq, Repr

/-- The splits dict built by `fetch_player_splits`. -/
structure Splits where
  home : SplitPair
  away : SplitPair
  vsConf : SplitPair
  deriving DecidableEq, Repr

/-- A stats dict (string-keyed, rational-valued), e.g. the 9-key dict
built by `fetch_player_stats` or one per-player tracking sub-dict. -/
abbrev StatsDict := List (String × Rat)

/-- Lookup in a stats dict: Python `d.get(k, default)`. -/
def dictGet (d : StatsDict) (k : String) (dflt : Rat) : Rat :=
  match d with
  | [] => dflt
  | (k0, v) :: rest => if k0 = k then v else dictGet rest k dflt

/-- Lookup in a stats dict without a default: Python `k in d` / `d[k]`. -/
def dictFind (d : StatsDict) (k : String) : Option Rat :=
  match d with
  | [] => none
  | (k0, v) :: rest => if k0 = k then some v else dictFind rest k

/-- A player-id-keyed map of stats dicts (`tracking_data`, `hustle_data`),
in Python-dict insertion order. -/
abbrev TrackMap := List (Int × StatsDict)

/-- Lookup `m[pid]` in a `TrackMap`. -/
def trackFind (m : TrackMap) (pid : Int) : Option StatsDict :=
  match m with
  | [] => none
  | (p, d) :: rest => if p = pid then some d else trackFind rest pid

/-- Assignment `m[pid] = d`: overwrite in place or append (Python dict assignment). -/
def trackSet (m : TrackMap) (pid : Int) (d : StatsDict) : TrackMap :=
  match m with
  | [] => [(pid, d)]
  | (p, e) :: rest =>
      if p = pid then (p, d) :: rest else (p, e) :: trackSet rest pid d

/-- Python `base.update(upd)` on a stats dict: replace existing keys in place,
append new keys in `upd` order. -/
def dictUpdate (base upd : StatsDict) : StatsDict :=
  match upd with
  | [] => base
  | (k, v) :: rest =>
      dictUpdate (if (dictFind base k).isSome
                  then base.map (fun p => if p.1 = k then (k, v) else p)
                  else base ++ [(k, v)]) rest

/-- Python `if pid not in m: m[pid] = {}` followed by `m[pid].update(upd)`. -/
def trackMerge (m : TrackMap) (pid : Int) (upd : StatsDict) : TrackMap :=
  match trackFind m pid with
  | some d => trackSet m pid (dictUpdate d upd)
  | none => trackSet m pid (dictUpdate [] upd)

/-! Section: The shared cache's value type

The Python cache stores heterogeneous values in one dict; the embedding
uses one sum type.  Each cache key is only ever written with the matching
constructor, so a fetch function treats a differently-shaped value under
its key like a miss (that branch is unreachable in program runs). -/

/-- The values the pipeline stores in the shared cache. -/
inductive CacheVal where
  | games (gs : List GameDict)
  | roster (rs : List RosterEntry)
  | stats (s : StatsDict)
  | last5 (l : List GameInfo)
  | splits (s : Splits)
  | tracking (m : TrackMap)
  | hustle (m : TrackMap)
  deriving DecidableEq, Repr

/-- The process-wide `cache = DataCache()` instance's state. -/
abbrev Cache := DataCache CacheVal

/-- One logical outbound NBA-API request (one `safe_api_call` invocation),
used to trace which upstream fetches a run actually issued. -/
inductive ApiCall where
  | liveScoreboard
  | statsScoreboard
  | teamRoster (teamId : Int)
  | playerDashboard (playerId : Int)
  | playerGameLog (playerId : Int)
  | trackingPassing
  | trackingRebounding
  | trackingSpeed
  | trackingPossessions
  | hustle
  deriving DecidableEq, Repr

/-- The upstream data source: for each endpoint, the outcome of each retry
attempt (`Except.error` = the attempt raised / timed out / failed). -/
structure Upstream where
  live : Nat → Except Unit (List LiveGameRow)
  scoreboard : Nat → Except Unit (List StatsGameRow)
  roster : Int → Nat → Except Unit (List RosterRow)
  dashboard : Int → Nat → Except Unit PlayerDashboard
  gameLog : Int → Nat → Except Unit (List GameLogRow)
  ptPassing : Nat → Except Unit (List PtRow)
  ptRebounding : Nat → Except Unit (List PtRow)
  ptSpeed : Nat → Except Unit (List PtRow)
  ptPossessions : Nat → Except Unit (List PtRow)
  hustle : Nat → Except Unit (List HustleRow)

/-- Function `safe_api_call` (src/main.py lines 190-202): up to `max_retries = 3`
attempts; a successful attempt's result is returned at once; the last
attempt's exception is re-raised (`Except.error`).  The rate-limiting
sleeps have no observable effect in the embedding. -/
def safe_api_call {α : Type} (f : Nat → Except Unit α) : Except Unit α :=
  match f 0 with
  | .ok a => .ok a
  | .error _ =>
    match f 1 with
    | .ok a => .ok a
    | .error _ => f 2

theorem safe_api_call_all_error {α : Type} (f : Nat → Except Unit α)
    (h : ∀ i, f i = .error ()) : safe_api_call f = .error () := by
  simp [safe_api_call, h 0, h 1, h 2]

/-! Section: Data fetching functions (src/main.py lines 220-560)

Each fetcher returns its result together with the updated cache and the
trace of upstream requests it issued.  The Python pattern
`cached = cache.get(key, ttl); if cached: return cached` serves a cached
value only when it is truthy (a non-empty list/dict); otherwise the fresh
path runs.  Each fetcher is split into the cache-check wrapper and a
`..._fresh` definition holding the body that runs on a miss. -/

/-- Conversion of one live-scoreboard game into the dict
`fetch_todays_games` builds (lines 234-242). -/
def convLiveGame (g : LiveGameRow) : GameDict :=
  { gameId := g.gameId, homeTeamId := g.homeTeamId, awayTeamId := g.awayTeamId,
    gameTime := g.gameStatusText, gameStatus := g.gameStatus,
    homeScore := some g.homeScore, awayScore := some g.awayScore }

/-- Conversion of one `ScoreboardV2` header row (lines 256-262); the score
keys are absent on this path. -/
def convStatsGame (r : StatsGameRow) : GameDict :=
  { gameId := r.gameId, homeTeamId := r.homeTeamId, awayTeamId := r.visitorTeamId,
    gameTime := r.gameStatusText, gameStatus := r.gameStatusId,
    homeScore := none, awayScore := none }

/-- The body of `fetch_todays_games` after a cache miss: try the live
scoreboard; when it succeeds with a non-empty games collection, cache and
return the converted games; otherwise (exception, or empty collection so
the `if scoreboard and scoreboard.games` guard fails) fall back to the
stats scoreboard; when that succeeds, cache and return its (possibly
empty) games; when both raise, return `[]`.  The Python truthiness of the
live `scoreboard.games` collection is modelled as non-emptiness of its
game list. -/
def fetch_todays_games_fresh (up : Upstream) (now : Rat) (c : Cache) :
    List GameDict × Cache × List ApiCall :=
  let fallback : List ApiCall → List GameDict × Cache × List ApiCall :=
    fun tr =>
      match safe_api_call up.scoreboard with
      | .ok rows =>
          let games := rows.map convStatsGame
          (games, c.set "todays_games" (.games games) now, tr ++ [.statsScoreboard])
      | .error _ => ([], c, tr ++ [.statsScoreboard])
  match safe_api_call up.live with
  | .ok lgs =>
      if lgs = [] then fallback [.liveScoreboard]
      else
        let games := lgs.map convLiveGame
        (games, c.set "todays_games" (.games games) now, [.liveScoreboard])
  | .error _ => fallback [.liveScoreboard]

/-- Function `fetch_todays_games` (lines 220-268): 2-minute cache, then the
live-then-stats fallback chain. -/
def fetch_todays_games (up : Upstream) (now : Rat) (c : Cache) :
    List GameDict × Cache × List ApiCall :=
  match c.get "todays_games" 120 now with
  | some (.games gs) =>
      if gs = [] then fetch_todays_games_fresh up now c else (gs, c, [])
  | some _ => fetch_todays_games_fresh up now c
  | none => fetch_todays_games_fresh up now c

/-- Conversion of one roster row into the player dict built by
`fetch_team_roster` (lines 284-291). -/
def convRosterRow (r : RosterRow) : RosterEntry :=
  { id := r.player_id, name := r.player, position := r.position,
    height := r.height, weight := r.weight, experience := r.exp }

/-- The body of `fetch_team_roster` after a cache miss. -/
def fetch_team_roster_fresh (up : Upstream) (now : Rat) (team_id : Int)
    (c : Cache) : List RosterEntry × Cache × List ApiCall :=
  match safe_api_call (up.roster team_id) with
  | .ok rows =>
      let players_list := rows.map convRosterRow
      (players_list,
       c.set ("roster_" ++ toString team_id) (.roster players_list) now,
       [.teamRoster team_id])
  | .error _ => ([], c, [.teamRoster team_id])

/-- Function `fetch_team_roster` (lines 270-297): 1-hour cache. -/
def fetch_team_roster (up : Upstream) (now : Rat) (team_id : Int) (c : Cache) :
    List RosterEntry × Cache × List ApiCall :=
  match c.get ("roster_" ++ toString team_id) 3600 now with
  | some (.roster rs) =>
      if rs = [] then fetch_team_roster_fresh up now team_id c else (rs, c, [])
  | some _ => fetch_team_roster_fresh up now team_id c
  | none => fetch_team_roster_fresh up now team_id c

/-- The all-zero stats dict `fetch_player_stats` starts from
(lines 307-310). -/
def defaultStats : StatsDict :=
  [("pts", 0), ("reb", 0), ("ast", 0), ("stl", 0), ("blk", 0),
   ("fg_pct", 0), ("fg3_pct", 0), ("ft_pct", 0), ("min", 0)]

/-- The stats dict built from the first overall-dashboard row
(lines 322-332). -/
def statsFromRow (row : StatRow) : StatsDict :=
  [("pts", orZero row.pts), ("reb", orZero row.reb), ("ast", orZero row.ast),
   ("stl", orZero row.stl), ("blk", orZero row.blk),
   ("fg_pct", orZero row.fg_pct), ("fg3_pct", orZero row.fg3_pct),
   ("ft_pct", orZero row.ft_pct), ("min", orZero row.min)]

/-- The body of `fetch_player_stats` after a cache miss: on a dashboard
exception the default dict is returned uncached; on success the default is
replaced only when the overall frame is non-empty, and the resulting dict
(possibly still the default) is cached. -/
def fetch_player_stats_fresh (up : Upstream) (now : Rat)
    (player_id : Int) (c : Cache) : StatsDict × Cache × List ApiCall :=
  match safe_api_call (up.dashboard player_id) with
  | .ok dash =>
      let stats := match dash.overall with
        | [] => defaultStats
        | row :: _ => statsFromRow row
      (stats,
       c.set ("player_stats_" ++ toString player_id) (.stats stats) now,
       [.playerDashboard player_id])
  | .error _ => (defaultStats, c, [.playerDashboard player_id])

/-- Function `fetch_player_stats` (lines 299-337): 10-minute cache.  The `team_id`
parameter is accepted and unused, as in the source. -/
def fetch_player_stats (up : Upstream) (now : Rat) (player_id : Int)
    (_team_id : Int) (c : Cache) : StatsDict × Cache × List ApiCall :=
  match c.get ("player_stats_" ++ toString player_id) 600 now with
  | some (.stats s) =>
      if s = [] then fetch_player_stats_fresh up now player_id c else (s, c, [])
  | some _ => fetch_player_stats_fresh up now player_id c
  | none => fetch_player_stats_fresh up now player_id c

/-- Conversion of one game-log row (lines 358-363). -/
def convLogRow (r : GameLogRow) : GameInfo :=
  { game := r.matchup, pts := orZeroInt r.pts, reb := orZeroInt r.reb,
    ast := orZeroInt r.ast }

/-- The body of `fetch_player_last5` after a cache miss: the first five
rows of the game log (`df.head(5)`, newest first) are converted; an
exception yields the empty list uncached. -/
def fetch_player_last5_fresh (up : Upstream) (now : Rat) (player_id : Int)
    (c : Cache) : List GameInfo × Cache × List ApiCall :=
  match safe_api_call (up.gameLog player_id) with
  | .ok rows =>
      let last5 := (rows.take 5).map convLogRow
      (last5,
       c.set ("player_last5_" ++ toString player_id) (.last5 last5) now,
       [.playerGameLog player_id])
  | .error _ => ([], c, [.playerGameLog player_id])

/-- Function `fetch_player_last5` (lines 339-368): 10-minute cache. -/
def fetch_player_last5 (up : Upstream) (now : Rat) (player_id : Int)
    (c : Cache) : List GameInfo × Cache × List ApiCall :=
  match c.get ("player_last5_" ++ toString player_id) 600 now with
  | some (.last5 l) =>
      if l = [] then fetch_player_last5_fresh up now player_id c else (l, c, [])
  | some _ => fetch_player_last5_fresh up now player_id c
  | none => fetch_player_last5_fresh up now player_id c

/-- The all-zero splits dict (lines 378-382). -/
def defaultSplits : Splits :=
  { home := ⟨0, 0⟩, away := ⟨0, 0⟩, vsConf := ⟨0, 0⟩ }

/-- The location loop of `fetch_player_splits` (lines 392-403). -/
def applyLocation (rows : List LocRow) (s : Splits) : Splits :=
  match rows with
  | [] => s
  | r :: rest =>
      applyLocation rest
        (if r.group_value = "Home" then { s with home := ⟨orZero r.pts, orZero r.reb⟩ }
         else if r.group_value = "Road" then { s with away := ⟨orZero r.pts, orZero r.reb⟩ }
         else s)

/-- The body of `fetch_player_splits` after a cache miss: one dashboard
call; the location frame fills home/away; the vs-conference frame (whose
access is guarded by its own bare `except: pass`) fills `vsConf` from its
first row when present; the result is cached on success and the default
returned uncached on a dashboard exception. -/
def fetch_player_splits_fresh (up : Upstream) (now : Rat) (player_id : Int)
    (c : Cache) : Splits × Cache × List ApiCall :=
  match safe_api_call (up.dashboard player_id) with
  | .ok dash =>
      let s1 := applyLocation dash.location defaultSplits
      let s2 := match dash.vsConference with
        | .ok (r :: _) => { s1 with vsConf := ⟨orZero r.pts, orZero r.reb⟩ }
        | .ok [] => s1
        | .error _ => s1
      (s2,
       c.set ("player_splits_" ++ toString player_id) (.splits s2) now,
       [.playerDashboard player_id])
  | .error _ => (defaultSplits, c, [.playerDashboard player_id])

/-- Function `fetch_player_splits` (lines 370-421): 30-minute cache.  A cached
splits dict always has its three keys, hence is always truthy and served
whenever fresh. -/
def fetch_player_splits (up : Upstream) (now : Rat) (player_id : Int)
    (c : Cache) : Splits × Cache × List ApiCall :=
  match c.get ("player_splits_" ++ toString player_id) 1800 now with
  | some (.splits s) => (s, c, [])
  | some _ => fetch_player_splits_fresh up now player_id c
  | none => fetch_player_splits_fresh up now player_id c

/-- The passing loop of `fetch_tracking_stats` (lines 444-452): full
assignment of each truthy player id's entry. -/
def applyPassing (rows : List PtRow) (m : TrackMap) : TrackMap :=
  match rows with
  | [] => m
  | r :: rest =>
      applyPassing rest
        (if r.player_id = 0 then m
         else trackSet m r.player_id
           [("passes", orZero r.passes_made),
            ("potential_ast", orZero r.potential_ast),
            ("ast", orZero r.ast),
            ("ast_pts_created", orZero r.ast_pts_created)])

/-- The rebounding loop (lines 466-476): ensure-entry then `update`. -/
def applyRebounding (rows : List PtRow) (m : TrackMap) : TrackMap :=
  match rows with
  | [] => m
  | r :: rest =>
      applyRebounding rest
        (if r.player_id = 0 then m
         else trackMerge m r.player_id
           [("reb_chances", orZero r.reb_chances),
            ("reb", orZero r.reb),
            ("contested_reb", orZero r.reb_contest),
            ("uncontested_reb", orZero r.reb_uncontest)])

/-- The speed/distance loop (lines 490-498). -/
def applySpeed (rows : List PtRow) (m : TrackMap) : TrackMap :=
  match rows with
  | [] => m
  | r :: rest =>
      applySpeed rest
        (if r.player_id = 0 then m
         else trackMerge m r.player_id
           [("speed", orZero r.avg_speed),
            ("distance", orZero r.dist_miles)])

/-- The touches/possessions loop (lines 511-520). -/
def applyPossessions (rows : List PtRow) (m : TrackMap) : TrackMap :=
  match rows with
  | [] => m
  | r :: rest =>
      applyPossessions rest
        (if r.player_id = 0 then m
         else trackMerge m r.player_id
           [("touches", orZero r.touches),
            ("time_of_poss", orZero r.time_of_poss)])

/-- The body of `fetch_tracking_stats` after a cache miss: four
`LeagueDashPtStats` requests inside one `try`.  An exception on any
request aborts the block and the function returns whatever
`tracking_data` already holds — the data accumulated before the failure —
so a failure after the first request yields a partial, not empty, map.
Only a fully successful run is cached. -/
def fetch_tracking_stats_fresh (up : Upstream) (now : Rat) (c : Cache) :
    TrackMap × Cache × List ApiCall :=
  match safe_api_call up.ptPassing with
  | .error _ => ([], c, [.trackingPassing])
  | .ok r1 =>
    let t1 := applyPassing r1 []
    match safe_api_call up.ptRebounding with
    | .error _ => (t1, c, [.trackingPassing, .trackingRebounding])
    | .ok r2 =>
      let t2 := applyRebounding r2 t1
      match safe_api_call up.ptSpeed with
      | .error _ => (t2, c, [.trackingPassing, .trackingRebounding, .trackingSpeed])
      | .ok r3 =>
        let t3 := applySpeed r3 t2
        match safe_api_call up.ptPossessions with
        | .error _ =>
            (t3, c,
             [.trackingPassing, .trackingRebounding, .trackingSpeed, .trackingPossessions])
        | .ok r4 =>
          let t4 := applyPossessions r4 t3
          (t4, c.set "tracking_stats" (.tracking t4) now,
           [.trackingPassing, .trackingRebounding, .trackingSpeed, .trackingPossessions])

/-- Function `fetch_tracking_stats` (lines 423-526): 30-minute cache. -/
def fetch_tracking_stats (up : Upstream) (now : Rat) (c : Cache) :
    TrackMap × Cache × List ApiCall :=
  match c.get "tracking_stats" 1800 now with
  | some (.tracking m) =>
      if m = [] then fetch_tracking_stats_fresh up now c else (m, c, [])
  | some _ => fetch_tracking_stats_fresh up now c
  | none => fetch_tracking_stats_fresh up now c

/-- The hustle loop (lines 546-555). -/
def applyHustle (rows : List HustleRow) (m : TrackMap) : TrackMap :=
  match rows with
  | [] => m
  | r :: rest =>
      applyHustle rest
        (if r.player_id = 0 then m
         else trackSet m r.player_id
           [("contested_shots", orZero r.contested_shots),
            ("deflections", orZero r.deflections),
            ("loose_balls", orZero r.loose_balls),
            ("screen_assists", orZero r.screen_assists),
            ("charges_drawn", orZero r.charges_drawn)])

/-- The body of `fetch_hustle_stats` after a cache miss. -/
def fetch_hustle_stats_fresh (up : Upstream) (now : Rat) (c : Cache) :
    TrackMap × Cache × List ApiCall :=
  match safe_api_call up.hustle with
  | .ok rows =>
      let m := applyHustle rows []
      (m, c.set "hustle_stats" (.hustle m) now, [.hustle])
  | .error _ => ([], c, [.hustle])

/-- Function `fetch_hustle_stats` (lines 528-560): 30-minute cache. -/
def fetch_hustle_stats (up : Upstream) (now : Rat) (c : Cache) :
    TrackMap × Cache × List ApiCall :=
  match c.get "hustle_stats" 1800 now with
  | some (.hustle m) =>
      if m = [] then fetch_hustle_stats_fresh up now c else (m, c, [])
  | some _ => fetch_hustle_stats_fresh up now c
  | none => fetch_hustle_stats_fresh up now c

/-! Section: Prop-line generation (src/main.py lines 562-593) -/

/-- Python 3 `round` to the nearest integer, halves to even (banker's
rounding), on the exact rational model of a float. -/
def pythonRound (x : Rat) : Int :=
  let f := x.floor
  let r := x - f
  if r < 1/2 then f
  else if 1/2 < r then f + 1
  else if f % 2 = 0 then f else f + 1

/-- Helper `round_to_half(x) = round(x * 2) / 2`. -/
def round_to_half (x : Rat) : Rat := (pythonRound (x * 2) : Rat) / 2

/-- One prop line with its over/under odds. -/
structure PropLine where
  line : Rat
  over : Int
  under : Int
  deriving DecidableEq, Repr

/-- Function `generate_odds(avg, line)` (lines 567-575). -/
def generate_odds (avg line : Rat) : Int × Int :=
  let diff := avg - line
  if diff > 1/2 then (-130, 110)
  else if diff < -1/2 then (110, -130)
  else (-110, -110)

/-- Function `generate_props_lines(stats)` (lines 562-593).  Python float literals
`0.2`, `0.33`, `0.5` are modelled as the exact rationals they denote. -/
def generate_props_lines (stats : StatsDict) : List (String × PropLine) :=
  let pts_line := round_to_half (dictGet stats "pts" 15)
  let reb_line := round_to_half (dictGet stats "reb" 5)
  let ast_line := round_to_half (dictGet stats "ast" 3)
  let fg3_pct := dictGet stats "fg3_pct" (33/100)
  let min_played := dictGet stats "min" 25
  let estimated_3pa := min_played * (2/10)
  let estimated_3pm := estimated_3pa * fg3_pct
  let threes_line := max (1/2) (round_to_half estimated_3pm)
  let mk : Rat → Rat → PropLine := fun avg line =>
    let odds := generate_odds avg line
    ⟨line, odds.1, odds.2⟩
  [("pts", mk (dictGet stats "pts" 15) pts_line),
   ("reb", mk (dictGet stats "reb" 5) reb_line),
   ("ast", mk (dictGet stats "ast" 3) ast_line),
   ("threes", mk estimated_3pm threes_line)]

/-! Section: Main data aggregation (`build_dashboard_data`, src/main.py 599-699) -/

/-- The per-player tracking object with defaults (lines 669-678). -/
structure TrackingOut where
  touches : Rat
  passes : Rat
  potential_ast : Rat
  ast : Rat
  reb_chances : Rat
  reb : Rat
  contested_shots : Rat
  speed : Rat
  deriving DecidableEq, Repr

/-- One player entry of the dashboard aggregate (lines 683-693). -/
structure PlayerOut where
  id : Int
  name : String
  team : Int
  position : String
  stats : StatsDict
  tracking : TrackingOut
  props : List (String × PropLine)
  last5 : List GameInfo
  splits : Splits
  deriving DecidableEq, Repr

/-- One game entry of the dashboard aggregate (lines 633-642), with the
placeholder odds fields. -/
structure GameOut where
  gameId : String
  homeTeamId : Int
  awayTeamId : Int
  gameTime : String
  gameStatus : Int
  spreadHome : Rat
  spreadAway : Rat
  total : Rat
  mlHome : Int
  mlAway : Int
  deriving DecidableEq, Repr

/-- The dashboard aggregate (lines 695-699); `lastUpdated` is the build
time. -/
structure DashboardData where
  games : List GameOut
  players : List PlayerOut
  lastUpdated : Rat
  deriving DecidableEq, Repr

/-- The game-entry conversion in the first loop of `build_dashboard_data`
(lines 633-642); the `NBA_TEAMS` lookups of the source are dead code (the
looked-up dicts are never used) and are omitted. -/
def gameOut (g : GameDict) : GameOut :=
  { gameId := g.gameId, homeTeamId := g.homeTeamId, awayTeamId := g.awayTeamId,
    gameTime := g.gameTime, gameStatus := g.gameStatus,
    spreadHome := -11/2, spreadAway := 11/2, total := 441/2,
    mlHome := -200, mlAway := 170 }

/-- The games list built by the first loop: games whose home or away team
id is falsy (`0`) are skipped (lines 620-624). -/
def collectGames (gamesRaw : List GameDict) : List GameOut :=
  match gamesRaw with
  | [] => []
  | g :: rest =>
      if g.homeTeamId = 0 ∨ g.awayTeamId = 0 then collectGames rest
      else gameOut g :: collectGames rest

/-- Python `team_ids.add(t)`: adding to the set, modelled as first-insertion
order (deduplicated append).  CPython iterates a set of small ints in a
deterministic hash order; the claims settled here do not depend on which
deterministic order is used. -/
def addTeam (tids : List Int) (t : Int) : List Int :=
  if t ∈ tids then tids else tids ++ [t]

/-- The `team_ids` set accumulated by the first loop (lines 620-627). -/
def collectTeamIds (gamesRaw : List GameDict) (acc : List Int) : List Int :=
  match gamesRaw with
  | [] => acc
  | g :: rest =>
      if g.homeTeamId = 0 ∨ g.awayTeamId = 0 then collectTeamIds rest acc
      else collectTeamIds rest (addTeam (addTeam acc g.homeTeamId) g.awayTeamId)

/-- The placeholder record substituted for a missing game in `last5`
(line 691). -/
def last5Placeholder : GameInfo := { game := "N/A", pts := 0, reb := 0, ast := 0 }

/-- The body of the inner player loop (lines 652-693): fetch stats, last-5
and splits for one roster entry, build the tracking object (league
tracking/hustle data with stats-derived defaults; Python floats `2.2`,
`1.4`, `4.0` as exact rationals), generate prop lines, and assemble the
player entry.  An empty `last5` is replaced by five placeholder records
(line 691). -/
def processPlayer (up : Upstream) (now : Rat) (tracking hustle : TrackMap)
    (team_id : Int) (p : RosterEntry) (c : Cache) :
    PlayerOut × Cache × List ApiCall :=
  let rs := fetch_player_stats up now p.id team_id c
  let stats := rs.1
  let rl := fetch_player_last5 up now p.id rs.2.1
  let last5 := rl.1
  let rp := fetch_player_splits up now p.id rl.2.1
  let splits := rp.1
  let player_tracking := (trackFind tracking p.id).getD []
  let player_hustle := (trackFind hustle p.id).getD []
  let trackingOut : TrackingOut :=
    { touches := dictGet player_tracking "touches" (dictGet stats "min" 25 * 2),
      passes := dictGet player_tracking "passes" (dictGet stats "ast" 3 * 8),
      potential_ast :=
        dictGet player_tracking "potential_ast" (dictGet stats "ast" 3 * (22/10)),
      ast := dictGet stats "ast" 0,
      reb_chances :=
        dictGet player_tracking "reb_chances" (dictGet stats "reb" 5 * (14/10)),
      reb := dictGet stats "reb" 0,
      contested_shots := dictGet player_hustle "contested_shots" 3,
      speed := dictGet player_tracking "speed" 4 }
  let props := generate_props_lines stats
  ({ id := p.id, name := p.name, team := team_id, position := p.position,
     stats := stats, tracking := trackingOut, props := props,
     last5 := if last5 = [] then List.replicate 5 last5Placeholder else last5,
     splits := splits },
   rp.2.1, rs.2.2 ++ rl.2.2 ++ rp.2.2)

/-- The inner player loop over `top_players` (lines 652-693): entries with
a falsy player id are skipped (`if not player_id: continue`). -/
def processPlayers (up : Upstream) (now : Rat) (tracking hustle : TrackMap)
    (team_id : Int) (ps : List RosterEntry) (c : Cache) :
    List PlayerOut × Cache × List ApiCall :=
  match ps with
  | [] => ([], c, [])
  | p :: rest =>
      if p.id = 0 then processPlayers up now tracking hustle team_id rest c
      else
        let r := processPlayer up now tracking hustle team_id p c
        let rr := processPlayers up now tracking hustle team_id rest r.2.1
        (r.1 :: rr.1, rr.2.1, r.2.2 ++ rr.2.2)

/-- The body of the team loop (lines 645-693): fetch the roster, keep
`roster[:8]` ("top 8 players per team" — a plain truncation of the roster
in its input order, with no minutes filter and no re-sort), then run the
player loop. -/
def processTeam (up : Upstream) (now : Rat) (tracking hustle : TrackMap)
    (team_id : Int) (c : Cache) : List PlayerOut × Cache × List ApiCall :=
  let rr := fetch_team_roster up now team_id c
  let top_players := rr.1.take 8
  let rp := processPlayers up now tracking hustle team_id top_players rr.2.1
  (rp.1, rp.2.1, rr.2.2 ++ rp.2.2)

/-- The outer team loop (line 645). -/
def processTeams (up : Upstream) (now : Rat) (tracking hustle : TrackMap)
    (tids : List Int) (c : Cache) : List PlayerOut × Cache × List ApiCall :=
  match tids with
  | [] => ([], c, [])
  | tid :: rest =>
      let r := processTeam up now tracking hustle tid c
      let rr := processTeams up now tracking hustle rest r.2.1
      (r.1 ++ rr.1, rr.2.1, r.2.2 ++ rr.2.2)

/-- Function `build_dashboard_data` (lines 599-699): fetch today's games; when the
list is empty (falsy), return the empty aggregate at once — before any
tracking, hustle, roster or per-player fetch; otherwise fetch the
league-wide tracking and hustle maps, convert the games, and run the team
loop over the active team ids. -/
def build_dashboard_data (up : Upstream) (now : Rat) (c : Cache) :
    DashboardData × Cache × List ApiCall :=
  let rg := fetch_todays_games up now c
  if rg.1 = [] then
    ({ games := [], players := [], lastUpdated := now }, rg.2.1, rg.2.2)
  else
    let rt := fetch_tracking_stats up now rg.2.1
    let rh := fetch_hustle_stats up now rt.2.1
    let games := collectGames rg.1
    let team_ids := collectTeamIds rg.1 []
    let rp := processTeams up now rt.1 rh.1 team_ids rh.2.1
    ({ games := games, players := rp.1, lastUpdated := now },
     rp.2.1, rg.2.2 ++ rt.2.2 ++ rh.2.2 ++ rp.2.2)

/-! Section: The single-player endpoint (`get_player`, src/main.py 742-769) -/

/-- One entry of the static player registry
(`nba_api.stats.static.players`), an external table the endpoint consults
before fetching. -/
structure PlayerInfoRec where
  full_name : String
  deriving DecidableEq, Repr

/-- The response of the `/api/player/{player_id}` endpoint. -/
inductive PlayerResponse where
  | ok (id : Int) (name : String) (stats : StatsDict) (last5 : List GameInfo)
      (splits : Splits)
  | httpError (code : Nat) (detail : String)
  deriving DecidableEq, Repr

/-- Endpoint handler `get_player` (lines 742-769): look the id up in the static registry;
a missing entry raises `HTTPException(404)` which the handler re-raises;
otherwise the three per-player fetchers run (with `team_id = 0` as in the
source) and a success payload is returned.  The fetchers never raise, so
the 500 branch of the source is unreachable and has no counterpart. -/
def get_player (registry : Int → Option PlayerInfoRec) (up : Upstream)
    (now : Rat) (player_id : Int) (c : Cache) :
    PlayerResponse × Cache × List ApiCall :=
  match registry player_id with
  | none => (.httpError 404 "Player not found", c, [])
  | some info =>
      let rs := fetch_player_stats up now player_id 0 c
      let rl := fetch_player_last5 up now player_id rs.2.1
      let rp := fetch_player_splits up now player_id rl.2.1
      (.ok player_id info.full_name rs.1 rl.1 rp.1,
       rp.2.1, rs.2.2 ++ rl.2.2 ++ rp.2.2)

/-! Section: TrendAnalyzer (spec §4.6) -/

/-- The four momentum classifications of a `TrendResult` (spec §3):
`neutral` is reserved for insufficient history (or a zero baseline) and is
a different constructor from `stable`. -/
inductive Trend where
  | hot
  | cold
  | stable
  | neutral
  deriving DecidableEq, Repr

/-- One hit-rate table line: over/under hit counts against a candidate
threshold line over the baseline window. -/
structure HitLine where
  line : Rat
  over : Nat
  under : Nat
  deriving DecidableEq, Repr

/-- Modelled from the spec: the `TrendResult` record of §3/§4.6.  The
repository ships no trend-analysis code under src/ (the spec derives it
from rewrites that are not part of the source tree), so the record follows
the spec's fields: classification, note, recent/5-game/baseline averages,
percent deviation, streak length and direction, baseline max/min, and the
hit-rate table.  "No further fields populated" is rendered by the absent /
zero defaults. -/
structure TrendResult where
  trend : Trend
  note : Option String := none
  avgRecent : Option Rat := none
  avgBaseline : Option Rat := none
  avg5 : Option Rat := none
  pctDiff : Option Rat := none
  streakLen : Nat := 0
  streakDir : Option Bool := none
  baselineMax : Option Rat := none
  baselineMin : Option Rat := none
  hitTable : List HitLine := []
  deriving DecidableEq, Repr

/-- Arithmetic mean of a list of rationals. -/
def mean (l : List Rat) : Rat := l.sum / (l.length : Rat)

/-- Maximum of a list, absent when empty. -/
def maxOf : List Rat → Option Rat
  | [] => none
  | v :: rest => some (rest.foldl max v)

/-- Minimum of a list, absent when empty. -/
def minOf : List Rat → Option Rat
  | [] => none
  | v :: rest => some (rest.foldl min v)

/-- Modelled from the spec (§4.6 step 7): walk the baseline values
recent-first and establish the streak direction (`true` = over) from the
first value clearing the seeding threshold `avgBaseline ± 15%` in either
direction, returning the remaining values; absent when no value clears
it. -/
def streakSeed (hi lo : Rat) : List Rat → Option (Bool × List Rat)
  | [] => none
  | v :: rest =>
      if v > hi then some (true, rest)
      else if v < lo then some (false, rest)
      else streakSeed hi lo rest

/-- Modelled from the spec (§4.6 step 7): extend the streak while
subsequent values stay on the same side of the baseline average (the
threshold only seeds the direction), stopping at the first value on the
other side. -/
def streakExtend (avg : Rat) (dir : Bool) : List Rat → Nat
  | [] => 0
  | v :: rest =>
      if (if dir then v > avg else v < avg) then streakExtend avg dir rest + 1
      else 0

/-- Modelled from the spec (§4.6 step 7): streak length and direction over
the baseline values; a history with no value clearing the initial
threshold yields length 0 and no direction. -/
def streakOf (vals : List Rat) (avg : Rat) : Nat × Option Bool :=
  match streakSeed (avg + avg * (15/100)) (avg - avg * (15/100)) vals with
  | none => (0, none)
  | some (dir, rest) => (1 + streakExtend avg dir rest, some dir)

/-- Modelled from the spec (§4.6 step 8): for each candidate line, the
count of baseline values strictly over it vs the complement, keeping only
lines whose over-count lies in the relevant 2-8 middle band. -/
def hitRateTable (lines : List Rat) (baseline : List Rat) : List HitLine :=
  (lines.map
    (fun ln =>
      let overHits := (baseline.filter (fun v => decide (ln < v))).length
      HitLine.mk ln overHits (baseline.length - overHits))).filter
    (fun h => decide (2 ≤ h.over) && decide (h.over ≤ 8))

/-- Modelled from the spec: `TrendAnalyzer.analyze` (§4.6), the component
absent from src/.  `history` is the newest-first value sequence of the
analyzed stat; `lines` is the stat-appropriate candidate line set of step
8.  Steps: (1) fewer than 3 records yields `neutral` with the
insufficient-data note and no further fields; (2-3) recent = first 3,
baseline = first 10 (or fewer), with their means; (4) a zero baseline
average yields `neutral` with zero averages; (5-6) percent deviation with
the ±15% hot/cold cut-offs, else `stable`; (7) the streak; (8) the
hit-rate table; (9) the 5-game average and baseline max/min. -/
def analyze (lines : List Rat) (history : List Rat) : TrendResult :=
  if history.length < 3 then
    { trend := .neutral, note := some "insufficient data" }
  else
    let recent := history.take 3
    let baseline := history.take 10
    let avgRecent := mean recent
    let avgBaseline := mean baseline
    if avgBaseline = 0 then
      { trend := .neutral, avgRecent := some 0, avgBaseline := some 0 }
    else
      let pctDiff := (avgRecent - avgBaseline) / avgBaseline * 100
      let trend :=
        if pctDiff > 15 then Trend.hot
        else if pctDiff < -15 then Trend.cold
        else Trend.stable
      let streak := streakOf baseline avgBaseline
      { trend := trend, avgRecent := some avgRecent,
        avgBaseline := some avgBaseline,
        avg5 := some (mean (history.take 5)), pctDiff := some pctDiff,
        streakLen := streak.1, streakDir := streak.2,
        baselineMax := maxOf baseline, baselineMin := minOf baseline,
        hitTable := hitRateTable lines baseline }

/-! Section: Concrete inputs used by witnesses and counterexamples -/

/-- An upstream on which every request raises on every attempt. -/
def upAllFail : Upstream :=
  { live := fun _ => .error (), scoreboard := fun _ => .error (),
    roster := fun _ _ => .error (), dashboard := fun _ _ => .error (),
    gameLog := fun _ _ => .error (), ptPassing := fun _ => .error (),
    ptRebounding := fun _ => .error (), ptSpeed := fun _ => .error (),
    ptPossessions := fun _ => .error (), hustle := fun _ => .error () }

/-- A concrete scheduled game between teams 1 and 2. -/
def gameRow0 : LiveGameRow :=
  { gameId := "001", homeTeamId := 1, awayTeamId := 2,
    gameStatusText := "7:00 pm ET", gameStatus := 1, homeScore := 0, awayScore := 0 }

/-- A concrete roster entry, player id 7. -/
def rosterRow0 : RosterRow :=
  { player_id := 7, player := "Test Player", position := "G",
    height := "6-5", weight := "200", exp := "3" }

/-- A concrete overall-dashboard row whose season minutes average is 10. -/
def statRow0 : StatRow :=
  { pts := some 20, reb := some 5, ast := some 4, stl := some 1, blk := some 1,
    fg_pct := none, fg3_pct := none, ft_pct := none, min := some 10 }

/-- A concrete upstream: one scheduled game (teams 1 and 2), team 1's
roster holding the single player 7 averaging 10 minutes, an empty game
log for everyone, all other requests failing. -/
def upC : Upstream :=
  { live := fun _ => .ok [gameRow0],
    scoreboard := fun _ => .error (),
    roster := fun tid _ => if tid = 1 then .ok [rosterRow0] else .error (),
    dashboard := fun pid _ =>
      if pid = 7 then .ok { overall := [statRow0], location := [], vsConference := .error () }
      else .error (),
    gameLog := fun _ _ => .ok [],
    ptPassing := fun _ => .error (), ptRebounding := fun _ => .error (),
    ptSpeed := fun _ => .error (), ptPossessions := fun _ => .error (),
    hustle := fun _ => .error () }

/-- A concrete passing-tracking row for player 9. -/
def ptRow9 : PtRow :=
  { player_id := 9, passes_made := some 50, potential_ast := some 10,
    ast := some 5, ast_pts_created := some 12, reb_chances := none, reb := none,
    reb_contest := none, reb_uncontest := none, avg_speed := none,
    dist_miles := none, touches := none, time_of_poss := none }

/-- A concrete upstream whose passing-tracking request succeeds with
player 9's row and whose rebounding-tracking request always raises. -/
def upTrk : Upstream := { upAllFail with ptPassing := fun _ => .ok [ptRow9] }

/-- A concrete static player registry containing only player 5. -/
def registryC : Int → Option PlayerInfoRec :=
  fun pid => if pid = 5 then some { full_name := "Ghost Player" } else none

/-! Section: C2 — window summary over the newest-first history -/

/-- C2 counterexample: with an empty game log (zero records available),
`fetch_player_last5` itself is empty, but the dashboard build substitutes
five zero-filled "N/A" records for the player's last-5 view instead of
leaving it absent — refuting "is absent when the history is empty — never
zero-filled" for the last-N games view the dashboard surfaces. -/
theorem last5_zero_filled_counterexample :
    (fetch_player_last5 upC 0 7 []).1 = []
    ∧ ((build_dashboard_data upC 0 []).1.players.map (fun p => p.last5)) =
        [List.replicate 5 last5Placeholder]
    ∧ List.replicate 5 last5Placeholder ≠ ([] : List GameInfo)
    ∧ last5Placeholder.pts = 0 ∧ last5Placeholder.reb = 0 ∧ last5Placeholder.ast = 0 := by
  refine ⟨by decide, by decide, by decide, rfl, rfl, rfl⟩

/-- C2 as amended: on a cache miss, `fetch_player_last5` returns exactly
the first `min(5, len)` newest-first records (so it is empty on an empty
history, and records beyond position 5 never affect it — appending extra
records to a length-≥5 log leaves the result unchanged); however, when the
fetched last-5 list is empty, `build_dashboard_data`'s player loop
replaces it with five zero-filled "N/A" placeholder records rather than
leaving it absent. -/
theorem fetch_player_last5_window (up up2 : Upstream) (now : Rat) (c : Cache)
    (pid : Int) (rows extra : List GameLogRow)
    (hmiss : c.get ("player_last5_" ++ toString pid) 600 now = none)
    (hok : safe_api_call (up.gameLog pid) = .ok rows) :
    ((fetch_player_last5 up now pid c).1 = (rows.take 5).map convLogRow)
    ∧ (rows = [] → (fetch_player_last5 up now pid c).1 = [])
    ∧ (safe_api_call (up2.gameLog pid) = .ok (rows ++ extra) → 5 ≤ rows.length →
        (fetch_player_last5 up2 now pid c).1 = (fetch_player_last5 up now pid c).1)
    ∧ (∀ tracking hustle team_id (p : RosterEntry) (c2 : Cache),
        (processPlayer up now tracking hustle team_id p c2).1.last5 =
          (if (fetch_player_last5 up now p.id
                 (fetch_player_stats up now p.id team_id c2).2.1).1 = []
           then List.replicate 5 last5Placeholder
           else (fetch_player_last5 up now p.id
                   (fetch_player_stats up now p.id team_id c2).2.1).1)) := by
  have hbase : (fetch_player_last5 up now pid c).1 = (rows.take 5).map convLogRow := by
    simp [fetch_player_last5, hmiss, fetch_player_last5_fresh, hok]
  refine ⟨hbase, ?_, ?_, ?_⟩
  · intro hr; simp [hbase, hr]
  · intro hok2 hlen
    have h2 : (fetch_player_last5 up2 now pid c).1 =
        ((rows ++ extra).take 5).map convLogRow := by
      simp [fetch_player_last5, hmiss, fetch_player_last5_fresh, hok2]
    rw [h2, hbase, List.take_append_of_le_length hlen]
  · intro tracking hustle team_id p c2
    simp [processPlayer]

/-- C2 witness: the amended statement instantiated at the concrete
upstream `upC` (empty game log for player 7) and the empty cache. -/
theorem fetch_player_last5_window_witness :
    (fetch_player_last5 upC 0 7 []).1 =
      (([] : List GameLogRow).take 5).map convLogRow :=
  (fetch_player_last5_window upC upC 0 [] 7 [] [] rfl rfl).1

/-! Section: C3 — roster selection -/

theorem processPlayers_ids (up : Upstream) (now : Rat)
    (tracking hustle : TrackMap) (team_id : Int) (ps : List RosterEntry)
    (c : Cache) :
    (processPlayers up now tracking hustle team_id ps c).1.map (fun p => p.id) =
      (ps.filter (fun p => p.id != 0)).map (fun p => p.id) := by
  induction ps generalizing c with
  | nil => simp [processPlayers]
  | cons p rest ih =>
      by_cases h : p.id = 0
      · simp [processPlayers, h, ih]
      · simp [processPlayers, h, ih, processPlayer]

/-- C3 counterexample: in the concrete build, player 7's season minutes
average is 10, strictly below the spec's `minMinutesPerGame = 15`
threshold, yet the player is selected into the dashboard — refuting
"roster selection excludes every candidate whose season minutes average is
below minMinutesPerGame". -/
theorem roster_selection_counterexample :
    dictGet (fetch_player_stats upC 0 7 1 []).1 "min" 0 = 10
    ∧ (10 : Rat) < 15
    ∧ ((build_dashboard_data upC 0 []).1.players.map (fun p => p.id)) = [7] := by
  refine ⟨by decide, by decide, by decide⟩

/-- C3 as amended: the build's per-team roster selection applies no
minutes filter and no ranking sort at all — for every upstream, cache and
team, the players surfaced for a team are exactly the first 8 entries of
the fetched roster in its input order (skipping only entries whose player
id is falsy), which also makes repeated runs on identical input
deterministic. -/
theorem roster_selection_amended (up : Upstream) (now : Rat)
    (tracking hustle : TrackMap) (team_id : Int) (c : Cache) :
    (processTeam up now tracking hustle team_id c).1.map (fun p => p.id) =
      (((fetch_team_roster up now team_id c).1.take 8).filter
          (fun p => p.id != 0)).map (fun p => p.id) := by
  simp [processTeam, processPlayers_ids]

/-! Section: C4 — the schedule fallback chain -/

/-- C4: on a cache miss, `fetch_todays_games` tries its strategies in
order — live scoreboard first, stats scoreboard second.  When the live
strategy yields a non-empty result it is returned and the stats strategy
is never invoked (the issued-call trace is exactly the live call); when
the live strategy fails (raises) or yields an empty result, the stats
strategy's result is returned; when every strategy fails, the empty list
is returned.  The function is total, so no exception ever escapes. -/
theorem fetch_todays_games_fallback (up : Upstream) (now : Rat) (c : Cache)
    (hmiss : c.get "todays_games" 120 now = none) :
    (∀ lgs, safe_api_call up.live = .ok lgs → lgs ≠ [] →
        (fetch_todays_games up now c).1 = lgs.map convLiveGame
        ∧ (fetch_todays_games up now c).2.2 = [ApiCall.liveScoreboard])
    ∧ (∀ rows,
        (safe_api_call up.live = .error () ∨ safe_api_call up.live = .ok []) →
        safe_api_call up.scoreboard = .ok rows →
        (fetch_todays_games up now c).1 = rows.map convStatsGame
        ∧ (fetch_todays_games up now c).2.2 =
            [ApiCall.liveScoreboard, ApiCall.statsScoreboard])
    ∧ ((safe_api_call up.live = .error () ∨ safe_api_call up.live = .ok []) →
        safe_api_call up.scoreboard = .error () →
        (fetch_todays_games up now c).1 = []) := by
  refine ⟨?_, ?_, ?_⟩
  · intro lgs hok hne
    constructor <;> simp [fetch_todays_games, hmiss, fetch_todays_games_fresh, hok, hne]
  · intro rows hlive hok
    rcases hlive with h | h <;>
      constructor <;>
        simp [fetch_todays_games, hmiss, fetch_todays_games_fresh, h, hok]
  · intro hlive herr
    rcases hlive with h | h <;>
      simp [fetch_todays_games, hmiss, fetch_todays_games_fresh, h, herr]

/-- C4 witness: the fallback contract instantiated at `upC`, whose live
scoreboard succeeds with one game, and the empty cache. -/
theorem fetch_todays_games_fallback_witness :
    (fetch_todays_games upC 0 []).1 = [gameRow0].map convLiveGame
    ∧ (fetch_todays_games upC 0 []).2.2 = [ApiCall.liveScoreboard] :=
  (fetch_todays_games_fallback upC 0 [] rfl).1 [gameRow0] rfl (by decide)

/-! Section: C5 — fetch-boundary error handling -/

/-- C5 counterexample: `fetch_tracking_stats` issues four upstream
requests inside one `try`; when the passing request succeeds and the
rebounding request then raises (through every retry), the function
returns the partially accumulated map — player 9's passing data — not the
empty/default value the claim requires for a failed fetch. -/
theorem tracking_partial_counterexample :
    safe_api_call upTrk.ptRebounding = .error ()
    ∧ (fetch_tracking_stats upTrk 0 []).1 =
        [(9, [("passes", 50), ("potential_ast", 10), ("ast", 5),
              ("ast_pts_created", 12)])]
    ∧ (fetch_tracking_stats upTrk 0 []).1 ≠ [] := by
  refine ⟨rfl, by decide, by decide⟩

/-- C5 as amended: no fetch function ever lets an exception escape (each
is total in the embedding, returning a value on every upstream outcome),
and on upstream failure each single-request fetcher — schedule (both
strategies), roster, player stats, last-5 history, splits, hustle — and a
tracking fetch whose first request fails return their empty or default
value; but the four-request tracking fetcher, when a later request fails,
returns the data accumulated before the failure (e.g. the passing-derived
map when the rebounding request raises) rather than the empty value. -/
theorem fetch_failure_defaults (up : Upstream) (now : Rat) :
    ((∀ i, up.live i = .error ()) → (∀ i, up.scoreboard i = .error ()) →
        (fetch_todays_games up now []).1 = [])
    ∧ (∀ tid, (∀ i, up.roster tid i = .error ()) →
        (fetch_team_roster up now tid []).1 = [])
    ∧ (∀ pid tid, (∀ i, up.dashboard pid i = .error ()) →
        (fetch_player_stats up now pid tid []).1 = defaultStats)
    ∧ (∀ pid, (∀ i, up.gameLog pid i = .error ()) →
        (fetch_player_last5 up now pid []).1 = [])
    ∧ (∀ pid, (∀ i, up.dashboard pid i = .error ()) →
        (fetch_player_splits up now pid []).1 = defaultSplits)
    ∧ ((∀ i, up.ptPassing i = .error ()) → (fetch_tracking_stats up now []).1 = [])
    ∧ ((∀ i, up.hustle i = .error ()) → (fetch_hustle_stats up now []).1 = [])
    ∧ (∀ rows, (∀ i, up.ptPassing i = .ok rows) →
        (∀ i, up.ptRebounding i = .error ()) →
        (fetch_tracking_stats up now []).1 = applyPassing rows []) := by
  refine ⟨?_, ?_, ?_, ?_, ?_, ?_, ?_, ?_⟩
  · intro h1 h2
    simp [fetch_todays_games, DataCache.get, DataCache.find,
      fetch_todays_games_fresh, safe_api_call_all_error _ h1,
      safe_api_call_all_error _ h2]
  · intro tid h
    simp [fetch_team_roster, DataCache.get, DataCache.find,
      fetch_team_roster_fresh, safe_api_call_all_error _ h]
  · intro pid tid h
    simp [fetch_player_stats, DataCache.get, DataCache.find,
      fetch_player_stats_fresh, safe_api_call_all_error _ h]
  · intro pid h
    simp [fetch_player_last5, DataCache.get, DataCache.find,
      fetch_player_last5_fresh, safe_api_call_all_error _ h]
  · intro pid h
    simp [fetch_player_splits, DataCache.get, DataCache.find,
      fetch_player_splits_fresh, safe_api_call_all_error _ h]
  · intro h
    simp [fetch_tracking_stats, DataCache.get, DataCache.find,
      fetch_tracking_stats_fresh, safe_api_call_all_error _ h]
  · intro h
    simp [fetch_hustle_stats, DataCache.get, DataCache.find,
      fetch_hustle_stats_fresh, safe_api_call_all_error _ h]
  · intro rows hok herr
    have h0 : safe_api_call up.ptPassing = .ok rows := by
      simp [safe_api_call, hok 0]
    simp [fetch_tracking_stats, DataCache.get, DataCache.find,
      fetch_tracking_stats_fresh, h0, safe_api_call_all_error _ herr]

/-- C5 witness: the amended statement instantiated at `upAllFail` (all
requests raise) and at `upTrk` (passing succeeds, rebounding raises). -/
theorem fetch_failure_defaults_witness :
    (fetch_todays_games upAllFail 0 []).1 = []
    ∧ (fetch_player_stats upAllFail 0 7 1 []).1 = defaultStats
    ∧ (fetch_tracking_stats upTrk 0 []).1 = applyPassing [ptRow9] [] :=
  ⟨(fetch_failure_defaults upAllFail 0).1 (fun _ => rfl) (fun _ => rfl),
   (fetch_failure_defaults upAllFail 0).2.2.1 7 1 (fun _ => rfl),
   (fetch_failure_defaults upTrk 0).2.2.2.2.2.2.2 [ptRow9] (fun _ => rfl)
     (fun _ => rfl)⟩

/-! Section: C6 — insufficient history is neutral -/

theorem mean_replicate (k : Nat) (v : Rat) (hk : k ≠ 0) :
    mean (List.replicate k v) = v := by
  have hk2 : (k : Rat) ≠ 0 := Nat.cast_ne_zero.mpr hk
  rw [mean, List.sum_replicate, nsmul_eq_mul, List.length_replicate,
    mul_comm, mul_div_assoc, div_self hk2, mul_one]

theorem analyze_replicate_stable (lines : List Rat) (v : Rat) (n : Nat)
    (hv : v ≠ 0) (hn : 3 ≤ n) :
    (analyze lines (List.replicate n v)).trend = Trend.stable := by
  have hrec : (List.replicate n v).take 3 = List.replicate 3 v := by
    rw [List.take_replicate]
    congr 1
    omega
  have hbase : (List.replicate n v).take 10 = List.replicate (min 10 n) v :=
    List.take_replicate ..
  have hmb : mean (List.replicate (min 10 n) v) = v :=
    mean_replicate _ _ (by omega)
  have hmr : mean (List.replicate 3 v) = v := mean_replicate _ _ (by omega)
  rw [analyze]
  rw [if_neg (by simp [List.length_replicate]; omega)]
  simp only [hrec, hbase, hmb, hmr]
  rw [if_neg hv]
  simp only [sub_self, zero_div, zero_mul]
  rw [if_neg (by norm_num), if_neg (by norm_num)]

/-- C6: `TrendAnalyzer.analyze` (modelled from the spec — the repository
ships no trend-analysis code under src/) on a history of fewer than 3
records returns the `neutral` classification with the insufficient-data
note and no further fields populated, whatever the record values; and
`neutral` is a distinct classification from the `stable` one produced for
sufficient history with no significant deviation (e.g. any constant
non-zero history of length at least 3 classifies as `stable`). -/
theorem trend_insufficient_neutral (lines history : List Rat)
    (h : history.length < 3) :
    analyze lines history =
      { trend := Trend.neutral, note := some "insufficient data" }
    ∧ Trend.neutral ≠ Trend.stable
    ∧ (∀ (v : Rat) (n : Nat), v ≠ 0 → 3 ≤ n →
        (analyze lines (List.replicate n v)).trend = Trend.stable) := by
  exact ⟨by simp [analyze, h], by decide,
    fun v n hv hn => analyze_replicate_stable lines v n hv hn⟩

/-- C6 witness: a length-2 history of extreme values is classified
`neutral` with the insufficient-data note. -/
theorem trend_insufficient_neutral_witness :
    analyze [] [5, 100] =
      { trend := Trend.neutral, note := some "insufficient data" } :=
  (trend_insufficient_neutral [] [5, 100] (by decide)).1

/-! Section: C7 — empty schedule short-circuits the build -/

theorem fetch_todays_games_fresh_calls (up : Upstream) (now : Rat) (c : Cache) :
    ∀ call ∈ (fetch_todays_games_fresh up now c).2.2,
      call = ApiCall.liveScoreboard ∨ call = ApiCall.statsScoreboard := by
  intro call hc
  unfold fetch_todays_games_fresh at hc
  cases hl : safe_api_call up.live with
  | ok lgs =>
      by_cases he : lgs = []
      · simp only [hl, he, if_pos] at hc
        cases hs : safe_api_call up.scoreboard <;>
          simp [hs] at hc <;> tauto
      · simp [hl, he] at hc
        tauto
  | error e =>
      simp only [hl] at hc
      cases hs : safe_api_call up.scoreboard <;>
        simp [hs] at hc <;> tauto

theorem fetch_todays_games_calls (up : Upstream) (now : Rat) (c : Cache) :
    ∀ call ∈ (fetch_todays_games up now c).2.2,
      call = ApiCall.liveScoreboard ∨ call = ApiCall.statsScoreboard := by
  intro call hc
  unfold fetch_todays_games at hc
  rcases hget : DataCache.get c "todays_games" 120 now with _ | val
  · rw [hget] at hc
    exact fetch_todays_games_fresh_calls up now c call hc
  · rw [hget] at hc
    cases val <;>
      first
        | exact fetch_todays_games_fresh_calls up now c call hc
        | (rename_i gs
           by_cases he : gs = [] <;> simp only [he, if_pos, if_neg] at hc <;>
             first
               | exact fetch_todays_games_fresh_calls up now c call hc
               | simp at hc)

/-- C7: whenever the schedule fetch yields zero games, the dashboard
build returns the aggregate with an empty games list, an empty players
list and the generated-at timestamp, and issues no per-entity fetch: its
whole issued-call trace is the schedule fetch's trace, every element of
which is a scoreboard call — no roster, player-dashboard, game-log,
tracking or hustle request is ever issued. -/
theorem build_no_games_empty (up : Upstream) (now : Rat) (c : Cache)
    (h : (fetch_todays_games up now c).1 = []) :
    (build_dashboard_data up now c).1 =
      { games := [], players := [], lastUpdated := now }
    ∧ (build_dashboard_data up now c).2.2 = (fetch_todays_games up now c).2.2
    ∧ ∀ call ∈ (build_dashboard_data up now c).2.2,
        call = ApiCall.liveScoreboard ∨ call = ApiCall.statsScoreboard := by
  have h1 : build_dashboard_data up now c =
      ({ games := [], players := [], lastUpdated := now },
       (fetch_todays_games up now c).2.1, (fetch_todays_games up now c).2.2) := by
    simp [build_dashboard_data, h]
  refine ⟨by rw [h1], by rw [h1], ?_⟩
  rw [h1]
  exact fun call hc => fetch_todays_games_calls up now c call hc

/-- C7 witness: at the all-failing upstream the schedule is empty and the
build returns the empty aggregate. -/
theorem build_no_games_empty_witness :
    (build_dashboard_data upAllFail 0 []).1 =
      { games := [], players := [], lastUpdated := 0 } :=
  (build_no_games_empty upAllFail 0 [] (by decide)).1

/-! Section: C8 — not-found vs bulk omission -/

/-- C8 counterexample: player 5 exists in the static registry but has no
profile and no history (every upstream fetch raises); the single-player
endpoint returns a success payload of defaulted stats, an empty last-5
and default splits — not the 404 outcome the claim requires for an entity
with no profile and no history. -/
theorem get_player_notfound_counterexample :
    (get_player registryC upAllFail 0 5 []).1 =
      PlayerResponse.ok 5 "Ghost Player" defaultStats [] defaultSplits
    ∧ (get_player registryC upAllFail 0 5 []).1 ≠
        PlayerResponse.httpError 404 "Player not found"
    ∧ (fetch_player_stats upAllFail 0 5 0 []).1 = defaultStats
    ∧ (fetch_player_last5 upAllFail 0 5 []).1 = [] := by
  refine ⟨by decide, by decide, by decide, by decide⟩

/-- C8 as amended: the single-player endpoint's 404 is keyed on the
static player registry, not on data availability — an id absent from the
registry yields the distinct 404 outcome, while a registered entity with
no profile and no history yields a success payload of defaulted stats,
empty history and default splits; and during bulk dashboard assembly an
entity is never surfaced as not-found but also not omitted: every entry
among the first 8 of its team's roster with a non-falsy id appears in the
output regardless of whether any of its data could be fetched (the build
is never aborted by a missing entity). -/
theorem get_player_amended :
    (∀ (registry : Int → Option PlayerInfoRec) (up : Upstream) (now : Rat)
        (pid : Int) (c : Cache), registry pid = none →
        (get_player registry up now pid c).1 =
          PlayerResponse.httpError 404 "Player not found")
    ∧ (∀ (registry : Int → Option PlayerInfoRec) (up : Upstream) (now : Rat)
        (pid : Int) (info : PlayerInfoRec), registry pid = some info →
        (∀ i, up.dashboard pid i = .error ()) →
        (∀ i, up.gameLog pid i = .error ()) →
        (get_player registry up now pid []).1 =
          PlayerResponse.ok pid info.full_name defaultStats [] defaultSplits)
    ∧ (∀ (up : Upstream) (now : Rat) (tracking hustle : TrackMap)
        (team_id : Int) (c : Cache) (p : RosterEntry),
        p ∈ (fetch_team_roster up now team_id c).1.take 8 → p.id ≠ 0 →
        p.id ∈ (processTeam up now tracking hustle team_id c).1.map
          (fun q => q.id)) := by
  refine ⟨?_, ?_, ?_⟩
  · intro registry up now pid c hreg
    simp [get_player, hreg]
  · intro registry up now pid info hreg hdash hlog
    have hstats : fetch_player_stats up now pid 0 [] =
        (defaultStats, [], [ApiCall.playerDashboard pid]) := by
      simp [fetch_player_stats, DataCache.get, DataCache.find,
        fetch_player_stats_fresh, safe_api_call_all_error _ hdash]
    have hlast : fetch_player_last5 up now pid [] =
        ([], [], [ApiCall.playerGameLog pid]) := by
      simp [fetch_player_last5, DataCache.get, DataCache.find,
        fetch_player_last5_fresh, safe_api_call_all_error _ hlog]
    have hsplits : fetch_player_splits up now pid [] =
        (defaultSplits, [], [ApiCall.playerDashboard pid]) := by
      simp [fetch_player_splits, DataCache.get, DataCache.find,
        fetch_player_splits_fresh, safe_api_call_all_error _ hdash]
    simp [get_player, hreg, hstats, hlast, hsplits]
  · intro up now tracking hustle team_id c p hp hpid
    have hEq : (processTeam up now tracking hustle team_id c).1.map
        (fun q => q.id) =
        (((fetch_team_roster up now team_id c).1.take 8).filter
            (fun q => q.id != 0)).map (fun q => q.id) := by
      simp [processTeam, processPlayers_ids]
    rw [hEq]
    exact List.mem_map.mpr
      ⟨p, List.mem_filter.mpr ⟨hp, by simpa using hpid⟩, rfl⟩

/-- C8 witness: the amended statement instantiated at the concrete
registry (player 99 absent → 404; player 5 registered but data-less →
success payload). -/
theorem get_player_amended_witness :
    (get_player registryC upAllFail 0 99 []).1 =
      PlayerResponse.httpError 404 "Player not found"
    ∧ (get_player registryC upAllFail 0 5 []).1 =
        PlayerResponse.ok 5 "Ghost Player" defaultStats [] defaultSplits :=
  ⟨get_player_amended.1 registryC upAllFail 0 99 [] (by decide),
   get_player_amended.2.1 registryC upAllFail 0 5 { full_name := "Ghost Player" }
     (by decide) (fun _ => rfl) (fun _ => rfl)⟩

/-! Section: C9 — falsy cached values are never served -/

theorem fetch_todays_games_fresh_calls_ne (up : Upstream) (now : Rat)
    (c : Cache) : (fetch_todays_games_fresh up now c).2.2 ≠ [] := by
  unfold fetch_todays_games_fresh
  repeat' split
  all_goals simp

theorem fetch_team_roster_fresh_calls_ne (up : Upstream) (now : Rat)
    (tid : Int) (c : Cache) :
    (fetch_team_roster_fresh up now tid c).2.2 ≠ [] := by
  unfold fetch_team_roster_fresh
  repeat' split
  all_goals simp

theorem fetch_player_stats_fresh_calls_ne (up : Upstream) (now : Rat)
    (pid : Int) (c : Cache) :
    (fetch_player_stats_fresh up now pid c).2.2 ≠ [] := by
  unfold fetch_player_stats_fresh
  repeat' split
  all_goals simp

theorem fetch_player_last5_fresh_calls_ne (up : Upstream) (now : Rat)
    (pid : Int) (c : Cache) :
    (fetch_player_last5_fresh up now pid c).2.2 ≠ [] := by
  unfold fetch_player_last5_fresh
  repeat' split
  all_goals simp

theorem fetch_tracking_stats_fresh_calls_ne (up : Upstream) (now : Rat)
    (c : Cache) : (fetch_tracking_stats_fresh up now c).2.2 ≠ [] := by
  unfold fetch_tracking_stats_fresh
  repeat' split
  all_goals simp

theorem fetch_hustle_stats_fresh_calls_ne (up : Upstream) (now : Rat)
    (c : Cache) : (fetch_hustle_stats_fresh up now c).2.2 ≠ [] := by
  unfold fetch_hustle_stats_fresh
  repeat' split
  all_goals simp

/-- C9: across the caching fetchers, the `if cached:` truthiness test
means a falsy stored value is never served.  (1) If the value stored
under the schedule key is the empty list and still within its TTL, the
schedule fetch nevertheless re-issues the upstream request (its issued
trace is non-empty); and (2-7) for the schedule, roster, player-stats,
last-5, tracking and hustle fetchers alike, whenever a call issues no
upstream request (i.e. it was served from the cache), the value returned
is non-empty.  (The splits fetcher's cached value is a three-key dict and
is never falsy, so the claim is vacuous there.) -/
theorem cache_falsy_not_served (up : Upstream) (now : Rat) (c : Cache) :
    (c.get "todays_games" 120 now = some (CacheVal.games []) →
        (fetch_todays_games up now c).2.2 ≠ [])
    ∧ ((fetch_todays_games up now c).2.2 = [] →
        (fetch_todays_games up now c).1 ≠ [])
    ∧ (∀ tid, (fetch_team_roster up now tid c).2.2 = [] →
        (fetch_team_roster up now tid c).1 ≠ [])
    ∧ (∀ pid tid, (fetch_player_stats up now pid tid c).2.2 = [] →
        (fetch_player_stats up now pid tid c).1 ≠ [])
    ∧ (∀ pid, (fetch_player_last5 up now pid c).2.2 = [] →
        (fetch_player_last5 up now pid c).1 ≠ [])
    ∧ ((fetch_tracking_stats up now c).2.2 = [] →
        (fetch_tracking_stats up now c).1 ≠ [])
    ∧ ((fetch_hustle_stats up now c).2.2 = [] →
        (fetch_hustle_stats up now c).1 ≠ []) := by
  refine ⟨?_, ?_, ?_, ?_, ?_, ?_, ?_⟩
  · intro hget
    simp [fetch_todays_games, hget, fetch_todays_games_fresh_calls_ne up now c]
  · unfold fetch_todays_games
    repeat' split
    all_goals
      simp_all [fetch_todays_games_fresh_calls_ne up now c]
  · intro tid
    unfold fetch_team_roster
    repeat' split
    all_goals
      simp_all [fetch_team_roster_fresh_calls_ne up now tid c]
  · intro pid tid
    unfold fetch_player_stats
    repeat' split
    all_goals
      simp_all [fetch_player_stats_fresh_calls_ne up now pid c]
  · intro pid
    unfold fetch_player_last5
    repeat' split
    all_goals
      simp_all [fetch_player_last5_fresh_calls_ne up now pid c]
  · unfold fetch_tracking_stats
    repeat' split
    all_goals
      simp_all [fetch_tracking_stats_fresh_calls_ne up now c]
  · unfold fetch_hustle_stats
    repeat' split
    all_goals
      simp_all [fetch_hustle_stats_fresh_calls_ne up now c]

/-- C9 witness: a cache holding a fresh empty games list under the
schedule key still triggers an upstream request. -/
theorem cache_falsy_not_served_witness :
    (fetch_todays_games upAllFail 0
        [("todays_games", { data := CacheVal.games [], timestamp := 0 })]).2.2 ≠ [] :=
  (cache_falsy_not_served upAllFail 0
      [("todays_games", { data := CacheVal.games [], timestamp := 0 })]).1
    (by norm_num [DataCache.get, DataCache.find])

/-! Section: C10 — the player-stats dict always carries the full key set -/

/-- The nine stat keys of the player-stats dict. -/
def statKeys : List String :=
  ["pts", "reb", "ast", "stl", "blk", "fg_pct", "fg3_pct", "ft_pct", "min"]

/-- C10: on a cache miss, whatever the upstream does — dashboard request
raising, succeeding with an empty overall frame, or succeeding with data —
`fetch_player_stats` returns a dict whose keys are exactly the nine stat
keys (each bound to a rational value by construction), and that dict is
the all-zero default whenever the request raised or the frame was empty;
moreover the function writes nothing to the cache except a dict with the
same nine keys, so a later call served from this cache key also returns a
full dict. -/
theorem fetch_player_stats_keys (up : Upstream) (now : Rat)
    (pid tid : Int) (c : Cache)
    (hmiss : c.get ("player_stats_" ++ toString pid) 600 now = none) :
    ((fetch_player_stats up now pid tid c).1.map Prod.fst = statKeys)
    ∧ (safe_api_call (up.dashboard pid) = .error () →
        (fetch_player_stats up now pid tid c).1 = defaultStats)
    ∧ (∀ d, safe_api_call (up.dashboard pid) = .ok d → d.overall = [] →
        (fetch_player_stats up now pid tid c).1 = defaultStats)
    ∧ ((fetch_player_stats up now pid tid c).2.1 = c ∨
        ∃ s : StatsDict, s.map Prod.fst = statKeys ∧
          (fetch_player_stats up now pid tid c).2.1 =
            c.set ("player_stats_" ++ toString pid) (CacheVal.stats s) now) := by
  have hfresh : fetch_player_stats up now pid tid c =
      fetch_player_stats_fresh up now pid c := by
    simp [fetch_player_stats, hmiss]
  cases hd : safe_api_call (up.dashboard pid) with
  | error e =>
      refine ⟨?_, fun _ => ?_, fun d hok _ => ?_, Or.inl ?_⟩
      · simp [hfresh, fetch_player_stats_fresh, hd, defaultStats, statKeys]
      · simp [hfresh, fetch_player_stats_fresh, hd]
      · simp at hok
      · simp [hfresh, fetch_player_stats_fresh, hd]
  | ok d =>
      cases hov : d.overall with
      | nil =>
          refine ⟨?_, fun herr => ?_, fun d2 hok hov2 => ?_, Or.inr ?_⟩
          · simp [hfresh, fetch_player_stats_fresh, hd, hov, defaultStats, statKeys]
          · simp at herr
          · simp [hfresh, fetch_player_stats_fresh, hd, hov]
          · refine ⟨defaultStats, by simp [defaultStats, statKeys], ?_⟩
            simp [hfresh, fetch_player_stats_fresh, hd, hov]
      | cons row rest =>
          refine ⟨?_, fun herr => ?_, fun d2 hok hov2 => ?_, Or.inr ?_⟩
          · simp [hfresh, fetch_player_stats_fresh, hd, hov, statsFromRow, statKeys]
          · simp at herr
          · injection hok with hde
            subst hde
            rw [hov] at hov2
            simp at hov2
          · refine ⟨statsFromRow row, by simp [statsFromRow, statKeys], ?_⟩
            simp [hfresh, fetch_player_stats_fresh, hd, hov]

/-- C10 witness: the key-set statement instantiated at `upAllFail` (the
dashboard request raises, the default dict comes back with the nine
keys). -/
theorem fetch_player_stats_keys_witness :
    (fetch_player_stats upAllFail 0 7 1 []).1.map Prod.fst = statKeys
    ∧ (fetch_player_stats upAllFail 0 7 1 []).1 = defaultStats :=
  ⟨(fetch_player_stats_keys upAllFail 0 7 1 [] rfl).1,
   (fetch_player_stats_keys upAllFail 0 7 1 [] rfl).2.1 rfl⟩

end NbaPropsLab
